import Mathlib

/-!
Verification of the WinRT video-capture module (`video_capture_winrt.cc`,
`device_info_winrt.cc`): a shallow embedding of the capture-device state
machine (`CaptureDevice`), the public facade (`VideoCaptureWinRT`) and the
format-negotiation loop inside `VideoCaptureWinRT::StartCapture`, together
with theorems settling the specified properties.

Machine integers are modelled as `Nat`/`Int` with explicit reduction
modulo `2 ^ 32` where the source's unsigned arithmetic can wrap.
Asynchronous native operations (sink initialisation, applying stream
properties, starting/stopping recording, device binding) are modelled by
boolean success oracles supplied as an environment: the source joins every
asynchronous chain with `.wait()`, so each public operation is a pure
state transformer once those outcomes are fixed.
-/

namespace WebrtcWinRTCapture

/-! ### Machine-integer helpers -/

/-- `INT_MAX`, the initial value of the three running minima in
`VideoCaptureWinRT::StartCapture`. -/
def INT_MAX : Int := 2 ^ 31 - 1

/-- Conversion of a C `int32_t`-valued expression to `uint32_t`
(reduction modulo `2 ^ 32`). -/
def toUInt32 (x : Int) : Nat := (x % (2 ^ 32 : Int)).toNat

/-- Reinterpretation of a `uint32_t` bit pattern as a C `int32_t`
(two's complement). -/
def toInt32 (n : Nat) : Int :=
  if n % 2 ^ 32 < 2 ^ 31 then ((n % 2 ^ 32 : Nat) : Int)
  else ((n % 2 ^ 32 : Nat) : Int) - 2 ^ 32

/-- `uint32_t` subtraction `a - b`, wrapping modulo `2 ^ 32`. -/
def subU32 (a b : Nat) : Nat :=
  (a % 2 ^ 32 + (2 ^ 32 - b % 2 ^ 32)) % 2 ^ 32

/-- C `abs` on `int` (the source never feeds it `INT_MIN` for in-range
video dimensions; modelled mathematically). -/
def cAbs (x : Int) : Int := if x < 0 then -x else x

/-! ### Pixel formats and native subtypes -/

/-- `RawVideoType` members used by the module (the remaining members of
the source enum all take the `default` branch of the subtype switch, and
`kVideoUnknown` stands for them). -/
inductive RawVideoType where
  | kVideoI420
  | kVideoYV12
  | kVideoYUY2
  | kVideoIYUV
  | kVideoRGB24
  | kVideoARGB
  | kVideoMJPEG
  | kVideoNV12
  | kVideoUnknown
  deriving DecidableEq, Repr

/-- Native media subtypes (`MediaEncodingSubtypes`) compared by the
source with `_wcsicmp`.  `Other` stands for any native subtype outside
the named ones; the requested subtype is always one of the named ones, so
conflating the exotic subtypes does not change the match predicate. -/
inductive MediaEncodingSubtype where
  | Yv12
  | Yuy2
  | Iyuv
  | Rgb24
  | Rgb32
  | Mjpg
  | Nv12
  | Other
  deriving DecidableEq, Repr

/-- The `switch (capability.rawType)` at the top of
`VideoCaptureWinRT::StartCapture`: raw pixel type to native subtype;
`none` is the `default` branch (`return -1`).  Note `kVideoARGB` falls
through to `Rgb24`, exactly as in the source. -/
def subtypeOfRaw : RawVideoType → Option MediaEncodingSubtype
  | .kVideoYV12 => some .Yv12
  | .kVideoYUY2 => some .Yuy2
  | .kVideoI420 => some .Iyuv
  | .kVideoIYUV => some .Iyuv
  | .kVideoRGB24 => some .Rgb24
  | .kVideoARGB => some .Rgb24
  | .kVideoMJPEG => some .Mjpg
  | .kVideoNV12 => some .Nv12
  | .kVideoUnknown => none

/-- The `_wcsicmp` chain in `CaptureDevice::StartCapture` mapping the
profile's subtype back to a `RawVideoType` (final `else` gives
`kVideoUnknown`). -/
def rawOfSubtype : MediaEncodingSubtype → RawVideoType
  | .Yv12 => .kVideoYV12
  | .Yuy2 => .kVideoYUY2
  | .Iyuv => .kVideoIYUV
  | .Rgb24 => .kVideoRGB24
  | .Rgb32 => .kVideoARGB
  | .Mjpg => .kVideoMJPEG
  | .Nv12 => .kVideoNV12
  | .Other => .kVideoUnknown

/-! ### Capabilities and offered formats -/

/-- `webrtc::VideoCaptureCapability` (fields are `int32_t`). -/
structure VideoCaptureCapability where
  width : Int
  height : Int
  maxFPS : Int
  rawType : RawVideoType
  deriving DecidableEq, Repr

/-- `IVideoEncodingProperties` of a native stream format: `Width`,
`Height` and `FrameRate->Numerator/Denominator` are `uint32_t`, plus the
native subtype string. -/
structure VideoEncodingProperties where
  subtype : MediaEncodingSubtype
  width : Nat
  height : Nat
  frNum : Nat
  frDen : Nat
  deriving DecidableEq, Repr

/-- `MediaEncodingProfile` as used by the module: only its `Video`
properties matter (`Audio` and `Container` are set to null). -/
structure MediaEncodingProfile where
  video : VideoEncodingProperties
  deriving DecidableEq, Repr

/-- The profile's video properties built by `VideoCaptureWinRT::StartCapture`:
`VideoEncodingProperties::CreateUncompressed(subtype, capability.width,
capability.height)` (the `int32_t` capability fields are converted to the
`uint32_t` parameters), then `FrameRate->Numerator = capability.maxFPS`
and `FrameRate->Denominator = 1`. -/
def mkVideoProperties (s : MediaEncodingSubtype) (cap : VideoCaptureCapability) :
    VideoEncodingProperties :=
  { subtype := s
    width := toUInt32 cap.width
    height := toUInt32 cap.height
    frNum := toUInt32 cap.maxFPS
    frDen := 1 }

/-! ### The format-matching loop of `VideoCaptureWinRT::StartCapture` -/

/-- `abs((int)(prop->Width - capability.width))`: the subtraction is
performed in `uint32_t` (wrapping), reinterpreted as `int`, then `abs`. -/
def diffC (propV : Nat) (capV : Int) : Int :=
  cAbs (toInt32 (subU32 propV (toUInt32 capV)))

/-- `(int)((float)prop->FrameRate->Numerator /
(float)prop->FrameRate->Denominator)`.  The source divides as `float`
and truncates to `int`; modelled as truncated natural division, which
agrees with the source whenever the quotient is exactly representable
(in particular whenever the denominator is 1 or divides the numerator). -/
def propFpsC (p : VideoEncodingProperties) : Int :=
  ((p.frNum / p.frDen : Nat) : Int)

/-- `abs((int)(propFps - capability.maxFPS))`. -/
def fpsDiffC (p : VideoEncodingProperties) (cap : VideoCaptureCapability) : Int :=
  cAbs (propFpsC p - cap.maxFPS)

/-- The mutable locals of the matching loop: `videoEncodingProperties`
(null before the first update), `minWidthDiff`, `minHeightDiff`,
`minFpsDiff`. -/
structure MatchState where
  best : Option VideoEncodingProperties
  minWidthDiff : Int
  minHeightDiff : Int
  minFpsDiff : Int
  deriving DecidableEq, Repr

/-- One iteration of the matching loop in
`VideoCaptureWinRT::StartCapture` (lines 697-733): skip formats whose
subtype differs from the requested one (`continue`), otherwise update the
running best under the width/height/fps comparison cascade. -/
def matchStep (cap : VideoCaptureCapability) (s : MediaEncodingSubtype)
    (st : MatchState) (p : VideoEncodingProperties) : MatchState :=
  if p.subtype ≠ s then st
  else
    let widthDiff := diffC p.width cap.width
    let heightDiff := diffC p.height cap.height
    let fpsDiff := fpsDiffC p cap
    if widthDiff < st.minWidthDiff then
      ⟨some p, widthDiff, heightDiff, fpsDiff⟩
    else if widthDiff = st.minWidthDiff then
      if heightDiff < st.minHeightDiff then
        ⟨some p, st.minWidthDiff, heightDiff, fpsDiff⟩
      else if heightDiff = st.minHeightDiff then
        if fpsDiff < st.minFpsDiff then
          ⟨some p, st.minWidthDiff, st.minHeightDiff, fpsDiff⟩
        else st
      else st
    else st

/-- The whole matching loop: fold over the offered stream properties with
all three minima initialised to `INT_MAX` and a null best; returns the
final `videoEncodingProperties` (`none` when no iteration selected one,
i.e. the variable is still null when the loop ends). -/
def selectProperties (s : MediaEncodingSubtype) (cap : VideoCaptureCapability)
    (offered : List VideoEncodingProperties) : Option VideoEncodingProperties :=
  (offered.foldl (matchStep cap s) ⟨none, INT_MAX, INT_MAX, INT_MAX⟩).best

/-! ### The `CaptureDevice` state machine -/

/-- Errors observable as thrown `Platform::Exception`s.  `invalidState`
is the `__HRESULT_FROM_WIN32(ERROR_INVALID_STATE)` thrown by a second
start; `asyncFailure` stands for any HRESULT failure surfaced by a
`.wait()` on a faulted asynchronous chain; `nullDereference` is the
`Platform::NullReferenceException` raised by calling through a null
handle. -/
inductive CaptureError where
  | invalidState
  | asyncFailure
  | nullDereference
  deriving DecidableEq, Repr

/-- The mutable fields of `ref class CaptureDevice`.  The two agile/ref
handles are modelled by their nullness (`media_capture`, `media_sink`);
event-registration tokens carry no observable state and are omitted. -/
structure CaptureDeviceState where
  media_capture : Bool
  media_sink : Bool
  capture_started : Bool
  frame_width : Int
  frame_height : Int
  max_fps : Int
  raw_type : RawVideoType
  deriving DecidableEq, Repr

/-- The constructor `CaptureDevice::CaptureDevice`: all handles null,
`capture_started_ = false`, zeroed format fields, `kVideoUnknown`. -/
def freshCaptureDevice : CaptureDeviceState :=
  { media_capture := false
    media_sink := false
    capture_started := false
    frame_width := 0
    frame_height := 0
    max_fps := 0
    raw_type := .kVideoUnknown }

namespace CaptureDevice

/-- `CaptureDevice::CleanupSink`: only when a sink exists, unregister its
sample event, delete it and clear `capture_started_`. -/
def CleanupSink (dev : CaptureDeviceState) : CaptureDeviceState :=
  if dev.media_sink then
    { dev with media_sink := false, capture_started := false }
  else dev

/-- `CaptureDevice::DoCleanup`: unregister the `Failed` handler (no
modelled state) and run `CleanupSink`. -/
def DoCleanup (dev : CaptureDeviceState) : CaptureDeviceState :=
  CleanupSink dev

/-- `CaptureDevice::Cleanup`: early return when both the media capture
and the sink are null; otherwise unregister the `Failed` handler and
clean up.  When a recording is in flight the source first awaits
`StopRecordAsync`, whose continuation takes the task by reference
(task-based), so `DoCleanup` runs whether or not the native stop
succeeded; the net state change is the same `DoCleanup`. -/
def Cleanup (dev : CaptureDeviceState) : CaptureDeviceState :=
  if dev.media_capture = false ∧ dev.media_sink = false then dev
  else DoCleanup dev

/-- `CaptureDevice::Initialize(deviceId)`: obtains the media capture
from the singleton cache and registers the `Failed` handler; on a thrown
exception runs `DoCleanup` and rethrows.  Whether
`GetMediaCapture(deviceId)` succeeds is environment-determined (it
throws, in particular, for an unresolvable or null device id), modelled
by the oracle `ok`. -/
def Initialize (dev : CaptureDeviceState) (ok : Bool) :
    CaptureDeviceState × Option CaptureError :=
  if ok then ({ dev with media_capture := true }, none)
  else (DoCleanup dev, some .asyncFailure)

/-- Success oracles for the three chained asynchronous steps of
`CaptureDevice::StartCapture`: `media_sink_->InitializeAsync`,
`SetMediaStreamPropertiesAsync`, `StartRecordToCustomSinkAsync`. -/
structure StartEnv where
  sinkInitOk : Bool
  setPropsOk : Bool
  startRecordOk : Bool
  deriving DecidableEq, Repr

/-- The asynchronous steps, in the order the source issues them. -/
inductive AsyncStep where
  | sinkInit
  | setProps
  | startRecord
  deriving DecidableEq, Repr

/-- Result of `CaptureDevice::StartCapture`: the device state after the
call (C++/CX mutations persist even when an exception is thrown), the
exception surfaced by the final `.wait()` (if any), and the trace of
asynchronous steps that were issued. -/
structure StartOutcome where
  dev : CaptureDeviceState
  err : Option CaptureError
  steps : List AsyncStep
  deriving DecidableEq, Repr

/-- `CaptureDevice::StartCapture(mediaEncodingProfile,
videoEncodingProperties)` (lines 468-525).  Faithful points:
* a second start (`media_sink_ && capture_started_`) throws
  `ERROR_INVALID_STATE` before any mutation;
* the format fields and `raw_type_` are assigned before the sink is
  created, whether or not the chain later fails;
* the first continuation of the chain is value-based
  (`IMediaExtension^` parameter), so a failed `InitializeAsync` skips
  the rest, surfaces at `.wait()`, and the sink is NOT released;
* the second continuation takes `Concurrency::task<void>` and never
  observes it, so a failed `SetMediaStreamPropertiesAsync` is swallowed
  and the chain proceeds to `StartRecordToCustomSinkAsync`;
* only the third continuation observes its task (`asyncInfo.get()`):
  a failed `StartRecordToCustomSinkAsync` runs `CleanupSink` and
  rethrows; on success `capture_started_ = true`. -/
def StartCapture (dev : CaptureDeviceState) (profile : MediaEncodingProfile)
    (_props : Option VideoEncodingProperties) (env : StartEnv) : StartOutcome :=
  if dev.media_sink ∧ dev.capture_started then
    ⟨dev, some .invalidState, []⟩
  else
    let dev1 := CleanupSink dev
    let dev2 := { dev1 with
      frame_width := toInt32 profile.video.width
      frame_height := toInt32 profile.video.height
      max_fps := ((profile.video.frNum / profile.video.frDen : Nat) : Int)
      raw_type := rawOfSubtype profile.video.subtype }
    let dev3 := { dev2 with media_sink := true }
    if env.sinkInitOk then
      if env.startRecordOk then
        ⟨{ dev3 with capture_started := true }, none,
          [.sinkInit, .setProps, .startRecord]⟩
      else
        ⟨CleanupSink dev3, some .asyncFailure,
          [.sinkInit, .setProps, .startRecord]⟩
    else
      ⟨dev3, some .asyncFailure, [.sinkInit]⟩

/-- `CaptureDevice::StopCapture` (lines 527-538): no-op when not
started; otherwise awaits `StopRecordAsync` whose continuation is
value-based (nullary lambda), so on native-stop success `CleanupSink`
runs, while on failure the continuation is skipped and the exception is
rethrown by `.wait()` with the sink left in place. -/
def StopCapture (dev : CaptureDeviceState) (stopOk : Bool) :
    CaptureDeviceState × Option CaptureError :=
  if dev.capture_started then
    if stopOk then (CleanupSink dev, none)
    else (dev, some .asyncFailure)
  else (dev, none)

/-- A raw media sample as observed by `CaptureDevice::OnMediaSample`:
`GetSampleTime` yields a `LONGLONG` in 100-nanosecond units; `lockOk` is
`SUCCEEDED(hr)` for the buffer `Lock`. -/
structure MediaSample where
  hnsSampleTime : Int
  frameLength : Nat
  lockOk : Bool
  deriving DecidableEq, Repr

/-- The frame record forwarded to
`incoming_frame_callback_->OnIncomingFrame`. -/
structure Frame where
  length : Nat
  captureTime : Int
  width : Int
  height : Int
  maxFPS : Int
  rawType : RawVideoType
  deriving DecidableEq, Repr

/-- `CaptureDevice::OnMediaSample` (lines 540-567): when a callback is
registered and the buffer lock succeeded, forward the frame whose
capture time is `hnsSampleTime / 10000` (C `LONGLONG` division truncates
toward zero, `Int.tdiv`) and whose format metadata is the negotiated
`frame_width_`/`frame_height_`/`max_fps_`/`raw_type_`. -/
def OnMediaSample (dev : CaptureDeviceState) (hasCallback : Bool)
    (sample : MediaSample) : Option Frame :=
  if hasCallback then
    if sample.lockOk then
      some { length := sample.frameLength
             captureTime := Int.tdiv sample.hnsSampleTime 10000
             width := dev.frame_width
             height := dev.frame_height
             maxFPS := dev.max_fps
             rawType := dev.raw_type }
    else none
  else none

end CaptureDevice

/-! ### The `VideoCaptureWinRT` facade -/

/-- The facade's mutable fields: `device_id_` (a `Platform::String^`,
modelled as the character list, null = `none`) and `device_` (the
`CaptureDevice^`). -/
structure FacadeState where
  device_id : Option (List Char)
  device : Option CaptureDeviceState
  deriving DecidableEq, Repr

/-- Modelled from the spec: `kVideoCaptureUniqueNameLength`, the fixed
maximum identifier length, is declared in `video_capture_defines.h`,
outside this snippet; its platform value is 1024, and the claims depend
only on it being a fixed bound. -/
def kVideoCaptureUniqueNameLength : Nat := 1024

/-- Environment of `VideoCaptureWinRT::Init`: the converted unique ids
produced by `DeviceInformation::FindAllAsync` enumeration, and whether
`GetMediaCapture` succeeds inside `CaptureDevice::Initialize`. -/
structure InitEnv where
  found : List (List Char)
  initializeOk : Bool
  deriving DecidableEq, Repr

/-- The enumeration loop of `VideoCaptureWinRT::Init`:
`strncmp(currentDeviceUniqueIdUTF8, device_unique_id,
device_unique_id_length) == 0` keeps the first enumerated device whose
converted id has the caller-supplied id as a prefix. -/
def resolveDeviceId (uid : List Char) (found : List (List Char)) :
    Option (List Char) :=
  found.find? (fun d => uid.isPrefixOf d)

namespace VideoCaptureWinRT

/-- Result of `VideoCaptureWinRT::Init`: the returned `int32_t`, the
facade state afterwards, and whether device enumeration
(`FindAllAsync`) was attempted. -/
structure InitResult where
  ret : Int
  st : FacadeState
  enumerated : Bool
  deriving DecidableEq, Repr

/-- `VideoCaptureWinRT::Init` (lines 577-644).  Faithful points:
* an identifier longer than `kVideoCaptureUniqueNameLength` returns `-1`
  before `device_id_` is touched and before any enumeration;
* otherwise `device_id_` is nulled and set to the first enumerated
  match (if any), then a fresh `CaptureDevice` is constructed and
  `Initialize(device_id_)` is attempted;
* on success the member `device_` is assigned and 0 is returned;
* on a thrown exception the catch block tests the MEMBER `device_`
  (which still holds its pre-call value, since the member is assigned
  only after a successful `Initialize`): if it is non-null it cleans it
  up, nulls both members and returns `-1`; if it is null (e.g. the first
  `Init` on a fresh facade) the catch body is skipped entirely and the
  function falls through to `return 0`. -/
def Init (st : FacadeState) (uid : List Char) (env : InitEnv) : InitResult :=
  if kVideoCaptureUniqueNameLength < uid.length then ⟨-1, st, false⟩
  else
    let deviceId := resolveDeviceId uid env.found
    let st1 := { st with device_id := deviceId }
    let r := CaptureDevice.Initialize freshCaptureDevice env.initializeOk
    match r.2 with
    | none => ⟨0, { st1 with device := some r.1 }, true⟩
    | some _ =>
      match st1.device with
      | some _ => ⟨-1, { st1 with device_id := none, device := none }, true⟩
      | none => ⟨0, st1, true⟩

/-- The body of `VideoCaptureWinRT::StartCapture` after the requested
subtype has been determined: build the encoding profile, run the
matching loop over the device's offered stream properties, and call
`device_->StartCapture` inside `try`/`catch`.  A null `device_` raises
`Platform::NullReferenceException`, which the `catch
(Platform::Exception^)` also catches, so the facade returns `-1` for it
too.  Nothing in the source checks whether the matching loop selected a
format: the (possibly null) `videoEncodingProperties` is passed on
regardless. -/
def StartCaptureWithSubtype (st : FacadeState) (cap : VideoCaptureCapability)
    (s : MediaEncodingSubtype) (offered : List VideoEncodingProperties)
    (env : CaptureDevice.StartEnv) : Int × FacadeState :=
  let profile : MediaEncodingProfile := ⟨mkVideoProperties s cap⟩
  let props := selectProperties s cap offered
  match st.device with
  | none => (-1, st)
  | some dev =>
    let out := CaptureDevice.StartCapture dev profile props env
    match out.err with
    | some _ => (-1, { st with device := some out.dev })
    | none => (0, { st with device := some out.dev })

/-- `VideoCaptureWinRT::StartCapture(capability)` (lines 646-745): the
subtype switch (`default` returns `-1` with no state change), then the
profile construction, matching loop and guarded `device_->StartCapture`
call.  `offered` is the list returned by
`GetAvailableMediaStreamProperties(MediaStreamType::VideoRecord)`. -/
def StartCapture (st : FacadeState) (cap : VideoCaptureCapability)
    (offered : List VideoEncodingProperties) (env : CaptureDevice.StartEnv) :
    Int × FacadeState :=
  match subtypeOfRaw cap.rawType with
  | none => (-1, st)
  | some s => StartCaptureWithSubtype st cap s offered env

/-- `VideoCaptureWinRT::StopCapture` (lines 747-750):
`device_->StopCapture(); return 0;` with no `try`/`catch` — a null
`device_` or an exception rethrown by the `.wait()` inside
`CaptureDevice::StopCapture` propagates to the caller instead of
returning. -/
def StopCapture (st : FacadeState) (stopOk : Bool) :
    Except CaptureError (Int × FacadeState) :=
  match st.device with
  | none => .error .nullDereference
  | some dev =>
    let r := CaptureDevice.StopCapture dev stopOk
    match r.2 with
    | some e => .error e
    | none => .ok (0, { st with device := some r.1 })

/-- `VideoCaptureWinRT::CaptureStarted`: `device_->CaptureStarted()`
(null `device_` raises). -/
def CaptureStarted (st : FacadeState) : Except CaptureError Bool :=
  match st.device with
  | none => .error .nullDereference
  | some dev => .ok dev.capture_started

end VideoCaptureWinRT

/-! ### The capability matcher as the spec words it

Reference definitions written from the spec's description of
`best_match` (§4.1), to be compared with the source's matching loop. -/

/-- Absolute width deviation `|width_offered - width_requested|`
(mathematical, over `Int`). -/
def keyW (cap : VideoCaptureCapability) (p : VideoEncodingProperties) : Int :=
  (((p.width : Int) - cap.width).natAbs : Int)

/-- Absolute height deviation `|height_offered - height_requested|`. -/
def keyH (cap : VideoCaptureCapability) (p : VideoEncodingProperties) : Int :=
  (((p.height : Int) - cap.height).natAbs : Int)

/-- Absolute fps deviation `|fps_offered - fps_requested|`, where the
offered fps is the truncated numerator/denominator quotient. -/
def keyF (cap : VideoCaptureCapability) (p : VideoEncodingProperties) : Int :=
  ((propFpsC p - cap.maxFPS).natAbs : Int)

/-- The spec's comparison triple `(|Δwidth|, |Δheight|, |Δfps|)`. -/
def specKey (cap : VideoCaptureCapability) (p : VideoEncodingProperties) :
    Int × Int × Int :=
  (keyW cap p, keyH cap p, keyF cap p)

/-- Strict lexicographic order on the comparison triples: width first,
then height, then fps. -/
def lexLtB (a b : Int × Int × Int) : Bool :=
  if a.1 < b.1 then true
  else if a.1 = b.1 then
    if a.2.1 < b.2.1 then true
    else if a.2.1 = b.2.1 then decide (a.2.2 < b.2.2)
    else false
  else false

/-- Fold selecting the first-encountered candidate with lexicographically
minimal key: a later candidate replaces the current best only when its
key is strictly smaller. -/
def specPick (cap : VideoCaptureCapability) (b : VideoEncodingProperties)
    (l : List VideoEncodingProperties) : VideoEncodingProperties :=
  l.foldl (fun b p => if lexLtB (specKey cap p) (specKey cap b) then p else b) b

/-- Modelled from the spec (§4.1 `best_match`): filter the offered
formats to those whose pixel-format subtype equals the requested one;
return `none` (NotFound) when the filtered set is empty, otherwise the
lexicographically minimal survivor under
`(|Δwidth|, |Δheight|, |Δfps|)` with ties broken in favour of the
first-encountered candidate. -/
def bestMatchSpec (s : MediaEncodingSubtype) (cap : VideoCaptureCapability)
    (offered : List VideoEncodingProperties) : Option VideoEncodingProperties :=
  match offered.filter (fun p => p.subtype == s) with
  | [] => none
  | c :: rest => some (specPick cap c rest)

/-- Requested capabilities in the sane `int32` video range: the wrapping
`uint32` subtraction of the source computes the true absolute deviation
exactly on this range. -/
abbrev CapInBounds (cap : VideoCaptureCapability) : Prop :=
  0 ≤ cap.width ∧ cap.width < 2 ^ 30 ∧ 0 ≤ cap.height ∧ cap.height < 2 ^ 30 ∧
    0 ≤ cap.maxFPS ∧ cap.maxFPS < 2 ^ 30

/-- Offered formats in the sane video range (nonzero frame-rate
denominator as the native layer guarantees). -/
abbrev PropInBounds (p : VideoEncodingProperties) : Prop :=
  p.width < 2 ^ 30 ∧ p.height < 2 ^ 30 ∧ p.frNum < 2 ^ 30 ∧ 0 < p.frDen

/-- The matching loop tracks, besides the best candidate, exactly that
candidate's three diffs. -/
def tracked (cap : VideoCaptureCapability) (p : VideoEncodingProperties) :
    MatchState :=
  ⟨some p, keyW cap p, keyH cap p, keyF cap p⟩

/-- The key invariant of the capture device: a started session always
has a live sink. -/
abbrev SinkInv (dev : CaptureDeviceState) : Prop :=
  dev.capture_started = true → dev.media_sink = true

/-! ### Concrete fixtures used by witnesses and counterexamples -/

/-- A 640x480 at 30fps YUY2 request. -/
def capYuy2 : VideoCaptureCapability := ⟨640, 480, 30, .kVideoYUY2⟩

/-- A 1280x720 at 25fps MJPEG request. -/
def capMjpg : VideoCaptureCapability := ⟨1280, 720, 25, .kVideoMJPEG⟩

/-- The encoding profile the facade builds for `capYuy2`. -/
def profYuy2 : MediaEncodingProfile := ⟨mkVideoProperties .Yuy2 capYuy2⟩

/-- An offered-format list with no YUY2 entry. -/
def offNv12 : List VideoEncodingProperties := [⟨.Nv12, 640, 480, 30, 1⟩]

/-- Two offered YUY2 formats; the second matches `capYuy2` exactly. -/
def offYuy2pair : List VideoEncodingProperties :=
  [⟨.Yuy2, 1280, 720, 30, 1⟩, ⟨.Yuy2, 640, 480, 30, 1⟩]

/-- A device after a successful `Initialize`, nothing started. -/
def devReady : CaptureDeviceState := { freshCaptureDevice with media_capture := true }

/-- A device with a recording in flight. -/
def devStarted : CaptureDeviceState :=
  { media_capture := true
    media_sink := true
    capture_started := true
    frame_width := 640
    frame_height := 480
    max_fps := 30
    raw_type := .kVideoYUY2 }

/-- A facade bound to `devReady`. -/
def stReady : FacadeState := ⟨some ['c', 'a', 'm'], some devReady⟩

/-- A facade bound to `devStarted`. -/
def stStarted : FacadeState := ⟨some ['c', 'a', 'm'], some devStarted⟩

/-- All three asynchronous start steps succeed. -/
def envAllOk : CaptureDevice.StartEnv := ⟨true, true, true⟩

/-! ### Matcher lemmas -/

theorem cAbs_eq_natAbs (x : Int) : cAbs x = (x.natAbs : Int) := by
  unfold cAbs; split <;> omega

theorem pow_int_32 : (2 : Int) ^ 32 = 4294967296 := by norm_num

theorem pow_nat_32 : (2 : Nat) ^ 32 = 4294967296 := by norm_num

/-- On the sane range, the source's wrapped `uint32` subtraction followed
by `int` reinterpretation and `abs` computes the true absolute
deviation. -/
theorem diffC_eq (v : Nat) (c : Int) (hv : v < 2 ^ 30) (hc0 : 0 ≤ c)
    (hc : c < 2 ^ 30) : diffC v c = (((v : Int) - c).natAbs : Int) := by
  unfold diffC subU32 toUInt32 toInt32
  rw [cAbs_eq_natAbs]
  simp only [pow_int_32, pow_nat_32]
  split <;> omega

theorem fpsDiffC_eq (p : VideoEncodingProperties)
    (cap : VideoCaptureCapability) : fpsDiffC p cap = keyF cap p := by
  unfold fpsDiffC keyF
  exact cAbs_eq_natAbs _

theorem diffC_width_eq (cap : VideoCaptureCapability)
    (p : VideoEncodingProperties) (hc : CapInBounds cap)
    (hp : PropInBounds p) : diffC p.width cap.width = keyW cap p :=
  diffC_eq p.width cap.width hp.1 hc.1 hc.2.1

theorem diffC_height_eq (cap : VideoCaptureCapability)
    (p : VideoEncodingProperties) (hc : CapInBounds cap)
    (hp : PropInBounds p) : diffC p.height cap.height = keyH cap p :=
  diffC_eq p.height cap.height hp.2.1 hc.2.2.1 hc.2.2.2.1

/-- A format that does not carry the requested subtype is skipped
(`continue`). -/
theorem matchStep_skip (cap : VideoCaptureCapability)
    (s : MediaEncodingSubtype) (st : MatchState)
    (p : VideoEncodingProperties) (hps : ¬p.subtype = s) :
    matchStep cap s st p = st := by
  simp [matchStep, hps]

/-- From a tracked state, one loop iteration on a matching candidate
replaces the best exactly when the candidate's triple is strictly
lexicographically smaller. -/
theorem matchStep_tracked (cap : VideoCaptureCapability)
    (s : MediaEncodingSubtype) (p b : VideoEncodingProperties)
    (hc : CapInBounds cap) (hp : PropInBounds p)
    (hps : p.subtype = s) :
    matchStep cap s (tracked cap b) p =
      if lexLtB (specKey cap p) (specKey cap b) then tracked cap p
      else tracked cap b := by
  unfold matchStep tracked lexLtB specKey
  simp only [hps, ne_eq, not_true_eq_false, if_false,
    diffC_width_eq cap p hc hp, diffC_height_eq cap p hc hp, fpsDiffC_eq]
  split_ifs <;> (simp_all [MatchState.mk.injEq]; try omega)

/-- From the initial state (`INT_MAX` minima, null best), the first
matching candidate is always adopted. -/
theorem matchStep_init (cap : VideoCaptureCapability)
    (s : MediaEncodingSubtype) (p : VideoEncodingProperties)
    (hc : CapInBounds cap) (hp : PropInBounds p)
    (hps : p.subtype = s) :
    matchStep cap s ⟨none, INT_MAX, INT_MAX, INT_MAX⟩ p = tracked cap p := by
  unfold matchStep tracked INT_MAX
  simp only [hps, ne_eq, not_true_eq_false, if_false,
    diffC_width_eq cap p hc hp, diffC_height_eq cap p hc hp, fpsDiffC_eq]
  have hw : keyW cap p < 2 ^ 31 - 1 := by
    unfold keyW; obtain ⟨h1, h2, -⟩ := hc; obtain ⟨h3, -⟩ := hp; omega
  rw [if_pos hw]

/-- The loop, started from a tracked state, computes the tracked state
of the spec's first-encountered lexicographic minimum over the matching
candidates. -/
theorem foldl_matchStep_tracked (cap : VideoCaptureCapability)
    (s : MediaEncodingSubtype) (hc : CapInBounds cap) :
    ∀ (l : List VideoEncodingProperties) (b : VideoEncodingProperties),
      (∀ p ∈ l, PropInBounds p) →
      List.foldl (matchStep cap s) (tracked cap b) l =
        tracked cap (specPick cap b (l.filter (fun p => p.subtype == s))) := by
  intro l
  induction l with
  | nil => intro b _; simp [specPick]
  | cons p l ih =>
    intro b hl
    have hp : PropInBounds p := hl p (List.mem_cons_self p l)
    have hl' : ∀ q ∈ l, PropInBounds q := fun q hq => hl q (List.mem_cons_of_mem p hq)
    by_cases hps : p.subtype = s
    · rw [List.foldl_cons, matchStep_tracked cap s p b hc hp hps]
      have hfil : (p :: l).filter (fun q => q.subtype == s) =
          p :: l.filter (fun q => q.subtype == s) := by
        simp [List.filter_cons, hps]
      rw [hfil]
      unfold specPick
      rw [List.foldl_cons]
      by_cases hlt : lexLtB (specKey cap p) (specKey cap b) = true
      · rw [if_pos hlt, if_pos hlt]
        exact ih p hl'
      · rw [if_neg hlt, if_neg hlt]
        exact ih b hl'
    · rw [List.foldl_cons, matchStep_skip cap s _ p hps]
      have hfil : (p :: l).filter (fun q => q.subtype == s) =
          l.filter (fun q => q.subtype == s) := by
        simp [List.filter_cons, hps]
      rw [hfil]
      exact ih b hl'

/-- The matching loop of `VideoCaptureWinRT::StartCapture` computes
exactly the spec's `best_match`. -/
theorem selectProperties_eq_bestMatchSpec (s : MediaEncodingSubtype)
    (cap : VideoCaptureCapability) (offered : List VideoEncodingProperties)
    (hc : CapInBounds cap) (hl : ∀ p ∈ offered, PropInBounds p) :
    selectProperties s cap offered = bestMatchSpec s cap offered := by
  induction offered with
  | nil => rfl
  | cons p l ih =>
    have hp : PropInBounds p := hl p (List.mem_cons_self p l)
    have hl' : ∀ q ∈ l, PropInBounds q := fun q hq => hl q (List.mem_cons_of_mem p hq)
    by_cases hps : p.subtype = s
    · unfold selectProperties bestMatchSpec
      rw [List.foldl_cons, matchStep_init cap s p hc hp hps,
        foldl_matchStep_tracked cap s hc l p hl']
      have hfil : (p :: l).filter (fun q => q.subtype == s) =
          p :: l.filter (fun q => q.subtype == s) := by
        simp [List.filter_cons, hps]
      rw [hfil]
      rfl
    · unfold selectProperties bestMatchSpec
      rw [List.foldl_cons, matchStep_skip cap s _ p hps]
      have hfil : (p :: l).filter (fun q => q.subtype == s) =
          l.filter (fun q => q.subtype == s) := by
        simp [List.filter_cons, hps]
      rw [hfil]
      unfold selectProperties bestMatchSpec at ih
      exact ih hl'

/-- When no offered format carries the requested subtype, every loop
iteration skips and the state stays at its initial value. -/
theorem foldl_matchStep_all_skip (cap : VideoCaptureCapability)
    (s : MediaEncodingSubtype) :
    ∀ (l : List VideoEncodingProperties) (st : MatchState),
      (∀ p ∈ l, ¬p.subtype = s) → List.foldl (matchStep cap s) st l = st := by
  intro l
  induction l with
  | nil => intro st _; rfl
  | cons p l ih =>
    intro st h
    rw [List.foldl_cons, matchStep_skip cap s st p (h p (List.mem_cons_self p l))]
    exact ih st (fun q hq => h q (List.mem_cons_of_mem p hq))

/-! ### The claims -/

/-- C1: for every requested capability in the sane `int32` video range
whose pixel format maps to native subtype `s`, and every offered-format
list in that range, the format chosen by the matching loop of
`VideoCaptureWinRT::StartCapture` (which is the format the call passes
to the capture device) is exactly the spec's `best_match`: among the
offered formats whose subtype equals `s`, the lexicographically minimal
candidate under `(|Δwidth|, |Δheight|, |Δfps|)` — width first, then
height, then fps — with ties resolved in favour of the first-encountered
candidate in enumeration order. -/
theorem claim_C1_matcher_lex_min (cap : VideoCaptureCapability)
    (s : MediaEncodingSubtype) (offered : List VideoEncodingProperties)
    (_hs : subtypeOfRaw cap.rawType = some s) (hc : CapInBounds cap)
    (hl : ∀ p ∈ offered, PropInBounds p) :
    selectProperties s cap offered = bestMatchSpec s cap offered :=
  selectProperties_eq_bestMatchSpec s cap offered hc hl

/-- Witness for C1 at the spec's own scenario: requesting 640x480 at 30
YUY2 against offered `[1280x720, 640x480]` YUY2 formats. -/
theorem claim_C1_witness :
    subtypeOfRaw capYuy2.rawType = some .Yuy2 ∧ CapInBounds capYuy2 ∧
      (∀ p ∈ offYuy2pair, PropInBounds p) ∧
      selectProperties .Yuy2 capYuy2 offYuy2pair =
        bestMatchSpec .Yuy2 capYuy2 offYuy2pair :=
  ⟨by decide, by decide, by decide,
    claim_C1_matcher_lex_min capYuy2 .Yuy2 offYuy2pair (by decide) (by decide)
      (by decide)⟩

/-- C2 counterexample: a YUY2 request against an offered list holding
only NV12 (the filtered candidate set is empty).  The matcher does
yield no format, but `VideoCaptureWinRT::StartCapture` does not fail: no
code checks the null `videoEncodingProperties`, the configure-and-start
chain is entered with an absent native format, and the call returns 0
with the session started. -/
theorem claim_C2_counterexample :
    selectProperties .Yuy2 capYuy2 offNv12 = none ∧
      VideoCaptureWinRT.StartCapture stReady capYuy2 offNv12 envAllOk =
        (0, ⟨stReady.device_id,
          some { media_capture := true
                 media_sink := true
                 capture_started := true
                 frame_width := 640
                 frame_height := 480
                 max_fps := 30
                 raw_type := .kVideoYUY2 }⟩) := by
  constructor
  · decide
  · decide

/-- C2 amended: the matcher itself reports NotFound (`none`) whenever
the filtered candidate set is empty, and a raw type with no native
subtype mapping makes `StartCapture` fail early with `-1`; but an empty
filtered set is not treated as an error: `StartCapture` proceeds to the
configure-and-start chain with an absent native format, and returns 0
whenever that chain succeeds on a live, non-started device. -/
theorem claim_C2_amended :
    (∀ (s : MediaEncodingSubtype) (cap : VideoCaptureCapability)
        (offered : List VideoEncodingProperties),
      offered.filter (fun p => p.subtype == s) = [] →
      selectProperties s cap offered = none) ∧
    (∀ (st : FacadeState) (cap : VideoCaptureCapability)
        (offered : List VideoEncodingProperties) (env : CaptureDevice.StartEnv),
      subtypeOfRaw cap.rawType = none →
      VideoCaptureWinRT.StartCapture st cap offered env = (-1, st)) ∧
    (∀ (st : FacadeState) (dev : CaptureDeviceState)
        (cap : VideoCaptureCapability) (s : MediaEncodingSubtype)
        (offered : List VideoEncodingProperties) (env : CaptureDevice.StartEnv),
      subtypeOfRaw cap.rawType = some s → st.device = some dev →
      dev.capture_started = false → env.sinkInitOk = true →
      env.startRecordOk = true →
      (VideoCaptureWinRT.StartCapture st cap offered env).1 = 0) := by
  refine ⟨?_, ?_, ?_⟩
  · intro s cap offered hfil
    unfold selectProperties
    rw [foldl_matchStep_all_skip cap s offered _ ?_]
    intro p hp hps
    have : p ∈ offered.filter (fun p => p.subtype == s) :=
      List.mem_filter.mpr ⟨hp, by simp [hps]⟩
    rw [hfil] at this
    exact absurd this (List.not_mem_nil p)
  · intro st cap offered env hnone
    unfold VideoCaptureWinRT.StartCapture
    rw [hnone]
  · intro st dev cap s offered env hs hdev hstarted h1 h2
    simp only [VideoCaptureWinRT.StartCapture, hs]
    simp only [VideoCaptureWinRT.StartCaptureWithSubtype, hdev]
    simp [CaptureDevice.StartCapture, hstarted, h1, h2]

/-- Witness for C2's amended statement: an MJPEG request against the
NV12-only offered list on a ready device. -/
theorem claim_C2_witness :
    selectProperties .Mjpg capMjpg offNv12 = none ∧
      (VideoCaptureWinRT.StartCapture stReady capMjpg offNv12 envAllOk).1 = 0 :=
  ⟨claim_C2_amended.1 .Mjpg capMjpg offNv12 (by decide),
    claim_C2_amended.2.2 stReady devReady capMjpg .Mjpg offNv12 envAllOk
      (by decide) (by decide) (by decide) (by decide) (by decide)⟩

/-- C3: the code violates the claim.  On the failing input — the first
`Init` on a fresh facade (stored `device_` still null) with a device id
whose `CaptureDevice::Initialize` throws (here: empty enumeration, so
`GetMediaCapture` fails) — the catch block tests the stale member
`device_`, which is null because the member is assigned only after a
successful `Initialize`; the rollback-and-return-`-1` branch is skipped
and `Init` falls through to `return 0`, reporting success for a failed
initialization (no live session remains, but the error is lost). -/
theorem claim_C3_failed_first_init_returns_zero :
    VideoCaptureWinRT.Init ⟨none, none⟩ ['c', 'a', 'm'] ⟨[], false⟩ =
      ⟨0, ⟨none, none⟩, true⟩ := by
  decide

/-- C4 counterexample: on a ready device, with sink initialization and
begin-recording succeeding but apply-stream-properties failing, the
chain still runs to the end (the second continuation takes its
antecedent task and never observes it): no error is reported, the sink
is kept, and the started flag becomes true although one of the three
steps failed. -/
theorem claim_C4_counterexample :
    (CaptureDevice.StartCapture devReady profYuy2 none ⟨true, false, true⟩).err =
        none ∧
      (CaptureDevice.StartCapture devReady profYuy2 none
            ⟨true, false, true⟩).dev.capture_started = true ∧
      (CaptureDevice.StartCapture devReady profYuy2 none
            ⟨true, false, true⟩).dev.media_sink = true := by
  decide

/-- C4 amended: on a non-started device the three asynchronous steps are
issued strictly in source order — sink initialize, then apply stream
properties, then begin recording — but a sink-initialize failure aborts
the chain and surfaces an error WITHOUT releasing the sink, an
apply-stream-properties failure is swallowed (its task is never
observed) and the chain proceeds, and only a begin-recording failure
releases the sink and surfaces an error; the started flag becomes true
exactly when sink initialize and begin recording both succeed,
regardless of the apply-stream-properties outcome. -/
theorem claim_C4_amended (dev : CaptureDeviceState)
    (profile : MediaEncodingProfile) (props : Option VideoEncodingProperties)
    (env : CaptureDevice.StartEnv) (hstarted : dev.capture_started = false) :
    (CaptureDevice.StartCapture dev profile props env).steps =
        (if env.sinkInitOk then
          [.sinkInit, .setProps, .startRecord] else [.sinkInit]) ∧
      (CaptureDevice.StartCapture dev profile props env).dev.capture_started =
        (env.sinkInitOk && env.startRecordOk) ∧
      ((CaptureDevice.StartCapture dev profile props env).err = none ↔
        env.sinkInitOk = true ∧ env.startRecordOk = true) ∧
      (env.sinkInitOk = true → env.startRecordOk = false →
        (CaptureDevice.StartCapture dev profile props env).dev.media_sink = false) ∧
      (env.sinkInitOk = false →
        (CaptureDevice.StartCapture dev profile props env).dev.media_sink = true) := by
  obtain ⟨si, sp, sr⟩ := env
  cases si <;> cases sr <;>
    simp [CaptureDevice.StartCapture, CaptureDevice.CleanupSink, hstarted] <;>
    split <;> simp [hstarted]

/-- Witness for C4's amended statement on the ready device with all
steps succeeding. -/
theorem claim_C4_witness :
    (CaptureDevice.StartCapture devReady profYuy2 none envAllOk).steps =
        (if envAllOk.sinkInitOk then
          [.sinkInit, .setProps, .startRecord] else [.sinkInit]) ∧
      (CaptureDevice.StartCapture devReady profYuy2 none
            envAllOk).dev.capture_started =
        (envAllOk.sinkInitOk && envAllOk.startRecordOk) ∧
      ((CaptureDevice.StartCapture devReady profYuy2 none envAllOk).err = none ↔
        envAllOk.sinkInitOk = true ∧ envAllOk.startRecordOk = true) ∧
      (envAllOk.sinkInitOk = true → envAllOk.startRecordOk = false →
        (CaptureDevice.StartCapture devReady profYuy2 none
            envAllOk).dev.media_sink = false) ∧
      (envAllOk.sinkInitOk = false →
        (CaptureDevice.StartCapture devReady profYuy2 none
            envAllOk).dev.media_sink = true) :=
  claim_C4_amended devReady profYuy2 none envAllOk (by decide)

/-- C5: a second `StartCapture` on a started session (live sink and
started flag set, as every started session has) throws
`ERROR_INVALID_STATE` out of `CaptureDevice::StartCapture` before any
mutation — so the negotiated `frame_width_`, `frame_height_`,
`max_fps_` and `raw_type_` are left exactly as the first successful
start set them — and the facade's catch converts it into the `-1` error
result with the facade state unchanged. -/
theorem claim_C5_already_started :
    (∀ (dev : CaptureDeviceState) (profile : MediaEncodingProfile)
        (props : Option VideoEncodingProperties)
        (env : CaptureDevice.StartEnv),
      dev.media_sink = true → dev.capture_started = true →
      CaptureDevice.StartCapture dev profile props env =
        ⟨dev, some .invalidState, []⟩) ∧
    (∀ (st : FacadeState) (dev : CaptureDeviceState)
        (cap : VideoCaptureCapability)
        (offered : List VideoEncodingProperties)
        (env : CaptureDevice.StartEnv),
      st.device = some dev → dev.media_sink = true →
      dev.capture_started = true →
      VideoCaptureWinRT.StartCapture st cap offered env = (-1, st)) := by
  have hdev : ∀ (dev : CaptureDeviceState) (profile : MediaEncodingProfile)
      (props : Option VideoEncodingProperties) (env : CaptureDevice.StartEnv),
      dev.media_sink = true → dev.capture_started = true →
      CaptureDevice.StartCapture dev profile props env =
        ⟨dev, some .invalidState, []⟩ := by
    intro dev profile props env h1 h2
    unfold CaptureDevice.StartCapture
    rw [if_pos ⟨h1, h2⟩]
  refine ⟨hdev, ?_⟩
  intro st dev cap offered env hst h1 h2
  obtain ⟨did, d⟩ := st
  simp only at hst
  subst hst
  cases hsub : subtypeOfRaw cap.rawType with
  | none => simp [VideoCaptureWinRT.StartCapture, hsub]
  | some s =>
    simp [VideoCaptureWinRT.StartCapture, hsub,
      VideoCaptureWinRT.StartCaptureWithSubtype,
      hdev dev ⟨mkVideoProperties s cap⟩
        (selectProperties s cap
          (offered : List VideoEncodingProperties)) env h1 h2]

/-- Witness for C5 on the started fixture. -/
theorem claim_C5_witness :
    VideoCaptureWinRT.StartCapture stStarted capYuy2 offYuy2pair envAllOk =
      (-1, stStarted) :=
  claim_C5_already_started.2 stStarted devStarted capYuy2 offYuy2pair envAllOk
    (by decide) (by decide) (by decide)

/-- C6 counterexample: on a started session whose native stop fails, the
value-based continuation holding `CleanupSink` is skipped and the
`.wait()` inside `CaptureDevice::StopCapture` rethrows; nothing catches
it, so `VideoCaptureWinRT::StopCapture` propagates an exception instead
of returning 0, and the sink is not released. -/
theorem claim_C6_counterexample :
    VideoCaptureWinRT.StopCapture stStarted false =
      .error .asyncFailure := rfl

/-- C6 amended: when the session is not started, `StopCapture` is a
no-op returning 0 regardless of the native-stop outcome; when it is
started (with its live sink) and the native stop succeeds, `StopCapture`
returns 0, the session is no longer started, the sink is released, and
a repeated call is a no-op returning 0 again; but a native-stop failure
propagates as an exception — success is not unconditional. -/
theorem claim_C6_amended (st : FacadeState) (dev : CaptureDeviceState)
    (hst : st.device = some dev) :
    (dev.capture_started = false →
      ∀ ok, VideoCaptureWinRT.StopCapture st ok = .ok (0, st)) ∧
    (dev.capture_started = true → dev.media_sink = true →
      VideoCaptureWinRT.StopCapture st true =
          .ok (0, ⟨st.device_id, some (CaptureDevice.CleanupSink dev)⟩) ∧
        (CaptureDevice.CleanupSink dev).capture_started = false ∧
        (CaptureDevice.CleanupSink dev).media_sink = false ∧
        ∀ ok, VideoCaptureWinRT.StopCapture
            ⟨st.device_id, some (CaptureDevice.CleanupSink dev)⟩ ok =
          .ok (0, ⟨st.device_id, some (CaptureDevice.CleanupSink dev)⟩)) := by
  obtain ⟨did, d⟩ := st
  simp only at hst
  subst hst
  constructor
  · intro hns ok
    simp [VideoCaptureWinRT.StopCapture, CaptureDevice.StopCapture, hns]
  · intro hs1 hs2
    refine ⟨?_, ?_, ?_, ?_⟩
    · simp [VideoCaptureWinRT.StopCapture, CaptureDevice.StopCapture, hs1]
    · simp [CaptureDevice.CleanupSink, hs2]
    · simp [CaptureDevice.CleanupSink, hs2]
    · intro ok
      simp [VideoCaptureWinRT.StopCapture, CaptureDevice.StopCapture,
        CaptureDevice.CleanupSink, hs2]

/-- Witness for C6's amended statement on the started fixture with a
succeeding native stop. -/
theorem claim_C6_witness :
    VideoCaptureWinRT.StopCapture stStarted true =
        .ok (0, ⟨stStarted.device_id,
          some (CaptureDevice.CleanupSink devStarted)⟩) ∧
      (CaptureDevice.CleanupSink devStarted).capture_started = false ∧
      (CaptureDevice.CleanupSink devStarted).media_sink = false ∧
      ∀ ok, VideoCaptureWinRT.StopCapture
          ⟨stStarted.device_id, some (CaptureDevice.CleanupSink devStarted)⟩ ok =
        .ok (0, ⟨stStarted.device_id,
          some (CaptureDevice.CleanupSink devStarted)⟩) :=
  (claim_C6_amended stStarted devStarted (by decide)).2 (by decide) (by decide)

/-- C7: an identifier longer than `kVideoCaptureUniqueNameLength` makes
`VideoCaptureWinRT::Init` return `-1` immediately: no device enumeration
is attempted and the facade state is unchanged. -/
theorem claim_C7_long_id_rejected (st : FacadeState) (uid : List Char)
    (env : InitEnv) (h : kVideoCaptureUniqueNameLength < uid.length) :
    VideoCaptureWinRT.Init st uid env = ⟨-1, st, false⟩ := by
  unfold VideoCaptureWinRT.Init
  rw [if_pos h]

/-- Witness for C7 with a 1025-character identifier. -/
theorem claim_C7_witness :
    kVideoCaptureUniqueNameLength < (List.replicate 1025 'a').length ∧
      VideoCaptureWinRT.Init ⟨none, none⟩ (List.replicate 1025 'a')
          ⟨[['x']], true⟩ = ⟨-1, ⟨none, none⟩, false⟩ :=
  ⟨by simp only [List.length_replicate, kVideoCaptureUniqueNameLength]; omega,
    claim_C7_long_id_rejected ⟨none, none⟩ (List.replicate 1025 'a')
      ⟨[['x']], true⟩
      (by simp only [List.length_replicate, kVideoCaptureUniqueNameLength]; omega)⟩

/-- C8: every frame forwarded by `CaptureDevice::OnMediaSample` carries
a capture time equal to the native 100-nanosecond sample timestamp
integer-divided by 10,000 (C truncating division); in particular a
native timestamp of 1,234,560 converts to 123 ms. -/
theorem claim_C8_timestamp_conversion :
    (∀ (dev : CaptureDeviceState) (cb : Bool)
        (sample : CaptureDevice.MediaSample) (f : CaptureDevice.Frame),
      CaptureDevice.OnMediaSample dev cb sample = some f →
      f.captureTime = Int.tdiv sample.hnsSampleTime 10000) ∧
    (∀ (dev : CaptureDeviceState) (sample : CaptureDevice.MediaSample)
        (f : CaptureDevice.Frame),
      sample.hnsSampleTime = 1234560 →
      CaptureDevice.OnMediaSample dev true sample = some f →
      f.captureTime = 123) := by
  have hfwd : ∀ (dev : CaptureDeviceState) (cb : Bool)
      (sample : CaptureDevice.MediaSample) (f : CaptureDevice.Frame),
      CaptureDevice.OnMediaSample dev cb sample = some f →
      f.captureTime = Int.tdiv sample.hnsSampleTime 10000 := by
    intro dev cb sample f h
    unfold CaptureDevice.OnMediaSample at h
    split at h
    · split at h
      · rw [← Option.some.inj h]
      · exact Option.noConfusion h
    · exact Option.noConfusion h
  refine ⟨hfwd, ?_⟩
  intro dev sample f hts h
  rw [hfwd dev true sample f h, hts]
  decide

/-- Witness for C8: a sample at native time 1,234,560 on a fresh device
yields a frame stamped 123 ms. -/
theorem claim_C8_witness :
    ({ length := 4, captureTime := 123, width := 0, height := 0,
        maxFPS := 0, rawType := .kVideoUnknown } :
      CaptureDevice.Frame).captureTime = 123 :=
  claim_C8_timestamp_conversion.2 freshCaptureDevice ⟨1234560, 4, true⟩
    ⟨4, 123, 0, 0, 0, .kVideoUnknown⟩ rfl (by decide)

/-- C9: a request whose raw pixel type is ARGB selects the RGB24 native
subtype — the `switch` maps `kVideoARGB` to
`MediaEncodingSubtypes::Rgb24`, so both the encoding profile and the
format-matching loop of `VideoCaptureWinRT::StartCapture` run with the
RGB24 subtype, not a distinct 32-bit one. -/
theorem claim_C9_argb_maps_to_rgb24 (st : FacadeState)
    (cap : VideoCaptureCapability) (offered : List VideoEncodingProperties)
    (env : CaptureDevice.StartEnv) (h : cap.rawType = .kVideoARGB) :
    subtypeOfRaw cap.rawType = some .Rgb24 ∧
      VideoCaptureWinRT.StartCapture st cap offered env =
        VideoCaptureWinRT.StartCaptureWithSubtype st cap .Rgb24 offered env := by
  constructor
  · rw [h]
    rfl
  · unfold VideoCaptureWinRT.StartCapture
    rw [h]
    rfl

/-- Witness for C9 on a concrete ARGB request. -/
theorem claim_C9_witness :
    subtypeOfRaw (VideoCaptureCapability.mk 640 480 30 .kVideoARGB).rawType =
        some .Rgb24 ∧
      VideoCaptureWinRT.StartCapture stReady ⟨640, 480, 30, .kVideoARGB⟩
          offNv12 envAllOk =
        VideoCaptureWinRT.StartCaptureWithSubtype stReady
          ⟨640, 480, 30, .kVideoARGB⟩ .Rgb24 offNv12 envAllOk :=
  claim_C9_argb_maps_to_rgb24 stReady ⟨640, 480, 30, .kVideoARGB⟩ offNv12
    envAllOk rfl

/-- C10: the invariant "the started flag implies a live media sink"
holds of a freshly constructed device and is preserved by every
operation of the capture device: `CleanupSink`, `DoCleanup`, `Cleanup`,
`Initialize`, `StartCapture` and `StopCapture` (releasing the sink
always also clears the started flag). -/
theorem claim_C10_sink_invariant :
    SinkInv freshCaptureDevice ∧
      (∀ dev, SinkInv dev → SinkInv (CaptureDevice.CleanupSink dev)) ∧
      (∀ dev, SinkInv dev → SinkInv (CaptureDevice.DoCleanup dev)) ∧
      (∀ dev, SinkInv dev → SinkInv (CaptureDevice.Cleanup dev)) ∧
      (∀ dev ok, SinkInv dev →
        SinkInv (CaptureDevice.Initialize dev ok).1) ∧
      (∀ (dev : CaptureDeviceState) (profile : MediaEncodingProfile)
          (props : Option VideoEncodingProperties)
          (env : CaptureDevice.StartEnv), SinkInv dev →
        SinkInv (CaptureDevice.StartCapture dev profile props env).dev) ∧
      (∀ dev ok, SinkInv dev →
        SinkInv (CaptureDevice.StopCapture dev ok).1) := by
  have hclean : ∀ dev, SinkInv dev → SinkInv (CaptureDevice.CleanupSink dev) := by
    intro dev h
    unfold CaptureDevice.CleanupSink
    split
    · intro hc; exact absurd hc (by simp)
    · exact h
  refine ⟨by decide, hclean, fun dev h => hclean dev h, ?_, ?_, ?_, ?_⟩
  · intro dev h
    unfold CaptureDevice.Cleanup
    split
    · exact h
    · exact hclean dev h
  · intro dev ok h
    unfold CaptureDevice.Initialize
    split
    · intro hc; exact h hc
    · exact hclean dev h
  · intro dev profile props env h
    obtain ⟨si, sp, sr⟩ := env
    unfold CaptureDevice.StartCapture
    split
    · exact h
    · cases si <;> cases sr <;>
        simp [CaptureDevice.CleanupSink] <;> (intro hc; simp_all)
  · intro dev ok h
    unfold CaptureDevice.StopCapture
    split
    · split
      · exact hclean dev h
      · exact h
    · exact h

/-- Witness for C10: cleaning up the started fixture preserves the
invariant. -/
theorem claim_C10_witness :
    SinkInv (CaptureDevice.CleanupSink devStarted) :=
  claim_C10_sink_invariant.2.1 devStarted (by decide)

end WebrtcWinRTCapture
